import Mathlib

/-!
Verification development for the PROJ coordinate-operation subsystem.

Part A embeds the spherical cea projection kernel and its setup routine
from src/projections/cea.cpp, with C doubles modelled as real numbers.

Part B embeds the authority-registry and resolver behaviour exercised by
src/test/unit/test_factory.cpp.  The factory and resolver sources are not
part of this corpus, so those definitions are modelled from the
specification (and, where the repository's own tests pin the behaviour,
from the expectations asserted by the tests); each such definition says so
in its doc comment.
-/

namespace PROJ

/-! ## Part A: the cea projection kernel (src/projections/cea.cpp) -/

/-- Error code PROJ_ERR_INVALID_OP_ILLEGAL_ARG_VALUE (proj.h): an argument
of a coordinate operation has an illegal value. -/
def PROJ_ERR_INVALID_OP_ILLEGAL_ARG_VALUE : Int := 1027

/-- Error code PROJ_ERR_COORD_TRANSFM_OUTSIDE_PROJECTION_DOMAIN (proj.h):
a coordinate to transform falls outside the projection domain. -/
def PROJ_ERR_COORD_TRANSFM_OUTSIDE_PROJECTION_DOMAIN : Int := 2050

/-- Projected coordinates, as struct PJ_XY. -/
structure PJ_XY where
  x : ℝ
  y : ℝ

/-- Geodetic coordinates (longitude lam, latitude phi, radians), as
struct PJ_LP. -/
structure PJ_LP where
  lam : ℝ
  phi : ℝ

/-- Tolerance EPS = 1e-10 from cea.cpp. -/
noncomputable def EPS : ℝ := 1 / 10 ^ 10

/-- Embedding of cea_s_forward (spheroidal forward mapping):
x = k0 * lam, y = sin(phi) / k0. -/
noncomputable def cea_s_forward (lp : PJ_LP) (k0 : ℝ) : PJ_XY :=
  ⟨k0 * lp.lam, Real.sin lp.phi / k0⟩

open Classical in
/-- Embedding of cea_s_inverse (spheroidal inverse mapping).  The C code
first scales xy.y by k0 and takes t = fabs(xy.y); when t - EPS <= 1 it
returns phi = ±π/2 for t >= 1 and phi = asin(xy.y) otherwise, together
with lam = xy.x / k0; otherwise it flags
PROJ_ERR_COORD_TRANSFM_OUTSIDE_PROJECTION_DOMAIN via proj_errno_set and
returns the zero-initialized lp.  The error channel is the second
component of the result. -/
noncomputable def cea_s_inverse (xy : PJ_XY) (k0 : ℝ) : PJ_LP × Option Int :=
  if |xy.y * k0| - EPS ≤ 1 then
    (⟨xy.x / k0,
      if 1 ≤ |xy.y * k0| then
        (if xy.y * k0 < 0 then -(Real.pi / 2) else Real.pi / 2)
      else Real.arcsin (xy.y * k0)⟩, none)
  else
    (⟨0, 0⟩, some PROJ_ERR_COORD_TRANSFM_OUTSIDE_PROJECTION_DOMAIN)

/-- Result of a successful cea setup: the scale factor k0 finally stored
on the PJ, and whether the ellipsoidal (es ≠ 0) kernels were installed. -/
structure CeaPJ where
  k0 : ℝ
  ellipsoidal : Bool

open Classical in
/-- Embedding of PJ_PROJECTION(cea), the setup routine of cea.cpp.
Inputs: whether a lat_ts parameter was supplied (pj_param "tlat_ts"), its
value in radians (pj_param "rlat_ts"), the k0 already present on the PJ
(P->k0, as initialized by the generic parameter handling), and the
eccentricity squared P->es.  When lat_ts is supplied the code sets
k0 = cos(lat_ts) and fails with PROJ_ERR_INVALID_OP_ILLEGAL_ARG_VALUE
exactly when that k0 is negative; with es ≠ 0 the code then divides k0 by
sqrt(1 - es * sin(t)^2), where t is lat_ts if supplied and 0 otherwise,
and installs the ellipsoidal kernels (the authalic-latitude coefficient
computation lives outside this corpus and does not affect k0).  The
destructor path for allocation failure is not modelled. -/
noncomputable def cea_setup (has_lat_ts : Bool) (lat_ts k0_init es : ℝ) :
    Except Int CeaPJ :=
  if has_lat_ts = true ∧ Real.cos lat_ts < 0 then
    Except.error PROJ_ERR_INVALID_OP_ILLEGAL_ARG_VALUE
  else if es ≠ 0 then
    Except.ok ⟨(if has_lat_ts = true then Real.cos lat_ts else k0_init) /
        Real.sqrt (1 - es *
          Real.sin (if has_lat_ts = true then lat_ts else 0) ^ 2), true⟩
  else
    Except.ok ⟨(if has_lat_ts = true then Real.cos lat_ts else k0_init),
      false⟩

/-! ## Part B: authority registry and resolver behaviour

The factory and resolver sources (src/iso19111/factory.cpp and the
coordinate-operation factory) are not part of this corpus; only their test
file src/test/unit/test_factory.cpp is.  The definitions below are
therefore modelled from the specification, and where the repository's own
tests assert concrete outcomes those outcomes are transcribed as fixture
data and expected results. -/

/-- Modelled from the spec: the error taxonomy of spec section 7 for the
missing factory sources.  NoSuchAuthorityCodeException (lookup miss) is a
distinguished subtype of FactoryException (any other construction
failure), modelled as a dedicated constructor of the exception type so a
caller can tell an unknown code from any other failure. -/
inductive FactoryException where
  | noSuchAuthorityCode (authority : String) (code : String)
  | generic (msg : String)
deriving DecidableEq, Repr

/-- True exactly on the NoSuchAuthorityCodeException variant. -/
def FactoryException.isNoSuchAuthorityCode : FactoryException → Bool
  | FactoryException.noSuchAuthorityCode _ _ => true
  | FactoryException.generic _ => false

/-! ### createObject (claim C5) -/

/-- One registry table: its name and the set of codes it contains. -/
structure ObjectTable where
  tableName : String
  codes : List String
deriving DecidableEq, Repr

/-- Tables of a registry whose code column contains a given code. -/
def matchingTables (tables : List ObjectTable) (code : String) :
    List ObjectTable :=
  tables.filter (fun t => t.codes.contains code)

/-- Modelled from the spec (section 4.2) and test
AuthorityFactory_createObject: createObject(code) looks the code up in
every known object table; with no match it fails with
NoSuchAuthorityCodeException, with exactly one match it returns the
object of that table, and when the code appears in several tables it
fails with a generic FactoryException (the test expects a plain
FactoryException for code 4326, which denotes both an area and a CRS).
The returned object is abstracted to the pair (table name, code). -/
def createObject (tables : List ObjectTable) (authority code : String) :
    Except FactoryException (String × String) :=
  match matchingTables tables code with
  | [] => Except.error (FactoryException.noSuchAuthorityCode authority code)
  | [t] => Except.ok (t.tableName, code)
  | _ => Except.error
      (FactoryException.generic "several objects matching this code")

/-- Transcription of claim C5's own words, for comparison: try every known
object table until one matches and return the matched object. -/
def createObjectFirstMatch (tables : List ObjectTable)
    (authority code : String) : Except FactoryException (String × String) :=
  match matchingTables tables code with
  | [] => Except.error (FactoryException.noSuchAuthorityCode authority code)
  | t :: _ => Except.ok (t.tableName, code)

/-- Registry fixture with a code present in two tables, as in test
AuthorityFactory_createObject where code 4326 names both an extent and a
geodetic CRS. -/
def ambiguousTables : List ObjectTable :=
  [⟨"extent", ["1262", "4326"]⟩,
   ⟨"geodetic_crs", ["4326", "4258"]⟩]

/-! ### Insertion sessions (claim C7) -/

/-- Modelled from the spec (section 5): a registry context with its
insertion-session mode; sessionOpen records whether an insertion session
is currently open, registry the codes already present. -/
structure DatabaseContext where
  sessionOpen : Bool
  registry : List String
deriving DecidableEq, Repr

/-- Modelled from the spec (section 5) and test objectInsertion: starting
an insertion session on a context that already has one open fails with
FactoryException; otherwise the session opens. -/
def startInsertStatementsSession (ctx : DatabaseContext) :
    Except FactoryException DatabaseContext :=
  if ctx.sessionOpen then
    Except.error (FactoryException.generic
      "startInsertStatementsSession() cannot be nested")
  else
    Except.ok ⟨true, ctx.registry⟩

/-- Modelled from the spec (section 5): exiting the insertion session;
tolerated even when no session is open. -/
def stopInsertStatementsSession (ctx : DatabaseContext) : DatabaseContext :=
  ⟨false, ctx.registry⟩

/-- Modelled from the spec (section 5) and test objectInsertion: querying
the generated insert statements outside an open session fails with
FactoryException rather than silently returning an empty list; inside a
session it returns the statements for the object (none when the object is
already registered). -/
def getInsertStatementsFor (ctx : DatabaseContext) (objCode : String) :
    Except FactoryException (List String) :=
  if ctx.sessionOpen then
    Except.ok (if ctx.registry.contains objCode then []
               else ["INSERT INTO object VALUES (" ++ objCode ++ ")"])
  else
    Except.error (FactoryException.generic
      "startInsertStatementsSession() should have been called first")

/-! ### Custom geodetic CRS defined by PROJ strings (claim C6) -/

/-- Registry record of a geodetic CRS whose definition is stored as a
PROJ-string fragment, as in test custom_geodetic_crs: either a literal
longlat string carrying the ellipsoid (semi-major axis a and reverse
flattening rf), a PROJ string that is not a CRS definition, or a
reference of the form NS:CODE to another CRS record. -/
inductive GeodeticCrsDef where
  | projText (a : ℚ) (rf : ℚ)
  | projTextNonCrs
  | refToCrs (ns : String) (code : String)
deriving DecidableEq, Repr

/-- Rows of the geodetic_crs table keyed by (authority, code). -/
structure GeodeticRegistry where
  rows : List ((String × String) × GeodeticCrsDef)
deriving DecidableEq, Repr

/-- Row lookup by (authority, code). -/
def lookupCrs (reg : GeodeticRegistry) (k : String × String) :
    Option GeodeticCrsDef :=
  (reg.rows.find? (fun r => r.1.1 == k.1 && r.1.2 == k.2)).map (fun r => r.2)

/-- The geographic CRS produced from a longlat PROJ string, abstracted to
its ellipsoid parameters. -/
structure GeographicCRS where
  semiMajorAxis : ℚ
  inverseFlattening : ℚ
deriving DecidableEq, Repr

/-- Modelled from the spec (sections 4.2 and 9): construction of a
geodetic CRS from a registry record recurses through the registry when
the record references another CRS; recursion depth is bounded explicitly
and a visited-code set is tracked per resolution call, failing fast with
FactoryException on revisit, so a cyclic reference is rejected rather
than recursed into unboundedly.  The messages distinguish cycle
detection from depth exhaustion. -/
def createGeodeticCRSWithFuel (reg : GeodeticRegistry) :
    Nat → List (String × String) → String × String →
    Except FactoryException GeographicCRS
  | 0, _, _ =>
    Except.error (FactoryException.generic "too many levels of indirection")
  | Nat.succ fuel, visited, k =>
    if visited.contains k then
      Except.error (FactoryException.generic
        "circular reference to a CRS definition")
    else
      match lookupCrs reg k with
      | none => Except.error (FactoryException.noSuchAuthorityCode k.1 k.2)
      | some (GeodeticCrsDef.projText a rf) => Except.ok ⟨a, rf⟩
      | some GeodeticCrsDef.projTextNonCrs =>
        Except.error (FactoryException.generic
          "invalid PROJ string for a geodetic CRS")
      | some (GeodeticCrsDef.refToCrs ns code) =>
        createGeodeticCRSWithFuel reg fuel (k :: visited) (ns, code)

/-- Entry point: the depth bound is one more than the registry size, which
the visited-code set can never exhaust without a revisit. -/
def createGeodeticCRS (reg : GeodeticRegistry) (k : String × String) :
    Except FactoryException GeographicCRS :=
  createGeodeticCRSWithFuel reg (reg.rows.length + 1) [] k

/-- Fixture transcribed from test custom_geodetic_crs: TEST is a literal
longlat string with a=2 rf=300, TEST_REF_ANOTHER references TEST,
TEST_WRONG is a non-CRS PROJ string, and TEST_RECURSIVE references its
own code. -/
def customCrsRegistry : GeodeticRegistry :=
  ⟨[(("TEST_NS", "TEST"), GeodeticCrsDef.projText 2 300),
    (("TEST_NS", "TEST_REF_ANOTHER"),
      GeodeticCrsDef.refToCrs "TEST_NS" "TEST"),
    (("TEST_NS", "TEST_WRONG"), GeodeticCrsDef.projTextNonCrs),
    (("TEST_NS", "TEST_RECURSIVE"),
      GeodeticCrsDef.refToCrs "TEST_NS" "TEST_RECURSIVE")]⟩

/-! ### Resolution of EPSG:4326 to EPSG:32631 (claim C2) -/

/-- A parameter value of an operation: EPSG parameter code, name, numeric
value and unit name. -/
structure ParameterValue where
  code : ℕ
  paramName : String
  value : ℚ
  unit : String
deriving DecidableEq, Repr

/-- An operation method identified by EPSG code and name. -/
structure OperationMethod where
  code : ℕ
  methodName : String
deriving DecidableEq, Repr

/-- A Conversion: code, name, method, ordered parameter values, and
optional source and target CRS codes (absent for the registry template,
set when the conversion is returned as the operation between two CRS). -/
structure Conversion where
  code : ℕ
  convName : String
  method : OperationMethod
  parameterValues : List ParameterValue
  sourceCRS : Option ℕ
  targetCRS : Option ℕ
deriving DecidableEq, Repr

/-- Structural equivalence of two conversions in the sense of
isEquivalentTo: same method and same parameter values, irrespective of
the source and target CRS they may have been attached to. -/
def Conversion.isEquivalentTo (a b : Conversion) : Prop :=
  a.method = b.method ∧ a.parameterValues = b.parameterValues

/-- Modelled from the spec (section 8 concrete scenario) and tests
AuthorityFactory_createConversion and
AuthorityFactory_createFromCoordinateReferenceSystemCodes: the registry
conversion EPSG:16031 (UTM zone 31N), method EPSG:9807 Transverse
Mercator, with its 5 parameter values; the test pins the first two
(latitude of natural origin 0 degree, longitude of natural origin
3 degree) and the count of 5. -/
def conv16031 : Conversion :=
  ⟨16031, "UTM zone 31N", ⟨9807, "Transverse Mercator"⟩,
   [⟨8801, "Latitude of natural origin", 0, "degree"⟩,
    ⟨8802, "Longitude of natural origin", 3, "degree"⟩,
    ⟨8805, "Scale factor at natural origin", 9996 / 10000, "unity"⟩,
    ⟨8806, "False easting", 500000, "metre"⟩,
    ⟨8807, "False northing", 0, "metre"⟩],
   none, none⟩

/-- A registry restricted to what the scenario needs: the conversions
table and the projected_crs table rows (crs code, base geodetic crs code,
deriving conversion code). -/
structure MiniRegistry where
  conversions : List Conversion
  projectedCrs : List (ℕ × ℕ × ℕ)
deriving DecidableEq, Repr

/-- Modelled from the spec (section 4.2): createConversion(code) returns
the conversion of that code or fails with NoSuchAuthorityCodeException. -/
def createConversion (reg : MiniRegistry) (code : ℕ) :
    Except FactoryException Conversion :=
  match reg.conversions.find? (fun c => c.code == code) with
  | some c => Except.ok c
  | none =>
    Except.error (FactoryException.noSuchAuthorityCode "EPSG" (toString code))

/-- Modelled from the spec (sections 4.2 and 4.3): resolving a CRS pair
returns, for a projected target CRS whose base is the source CRS, the
deriving conversion of the projected CRS with its source and target CRS
filled in; the EPSG registry holds no other operation between EPSG:4326
and EPSG:32631. -/
def createFromCoordinateReferenceSystemCodes (reg : MiniRegistry)
    (sourceCode targetCode : ℕ) : List Conversion :=
  reg.projectedCrs.filterMap (fun p =>
    if p.1 = targetCode ∧ p.2.1 = sourceCode then
      (reg.conversions.find? (fun c => c.code == p.2.2)).map
        (fun c => { c with sourceCRS := some sourceCode,
                           targetCRS := some targetCode })
    else none)

/-- The registry fragment for the scenario: the projected CRS EPSG:32631
(WGS 84 / UTM zone 31N) with base EPSG:4326 and deriving conversion
EPSG:16031. -/
def epsgMini : MiniRegistry :=
  ⟨[conv16031], [(32631, 4326, 16031)]⟩

/-! ### Pivot resolution (claim C3) -/

/-- A registered transformation row: namespaced source and target CRS. -/
structure TransformRecord where
  srcNS : String
  src : String
  tgtNS : String
  tgt : String
deriving DecidableEq, Repr

/-- A resolved coordinate operation: a registered transformation used
forward or, when found in the reverse direction, wrapped with an
inversion marker; or a 2-step concatenated operation synthesized from two
such legs during pivot search. -/
inductive ResolvedOperation where
  | transform (rec : TransformRecord) (inverted : Bool)
  | concatenated2 (leg1 : TransformRecord × Bool) (leg2 : TransformRecord × Bool)
deriving DecidableEq, Repr

/-- Number of member steps of a resolved operation. -/
def ResolvedOperation.stepCount : ResolvedOperation → ℕ
  | ResolvedOperation.transform _ _ => 1
  | ResolvedOperation.concatenated2 _ _ => 2

/-- Modelled from the spec (section 4.3 step 2): every registered
operation whose (source, target) matches the requested pair in either
direction; reverse-direction matches are wrapped with an inversion marker
rather than duplicated. -/
def directOperations (reg : List TransformRecord)
    (s t : String × String) : List (TransformRecord × Bool) :=
  reg.filterMap (fun r =>
    if r.srcNS == s.1 && r.src == s.2 && r.tgtNS == t.1 && r.tgt == t.2 then
      some (r, false)
    else if r.srcNS == t.1 && r.src == t.2 && r.tgtNS == s.1 && r.tgt == s.2
    then
      some (r, true)
    else none)

/-- Modelled from the spec (sections 4.2 and 4.3 step 3):
createFromCRSCodesWithIntermediates returns the direct operations when
any exist; otherwise it performs a single-pivot search over the
caller-supplied pivot list (or, when that list is empty, over every other
CRS known to the registry), requiring both the source-to-pivot and the
pivot-to-target leg to resolve in either direction, and combines each
successful pair into a 2-step concatenated operation. -/
def createFromCRSCodesWithIntermediates (reg : List TransformRecord)
    (allCrs : List (String × String)) (s t : String × String)
    (pivots : List (String × String)) : List ResolvedOperation :=
  let direct := directOperations reg s t
  if direct.isEmpty then
    let cands := if pivots.isEmpty then
        allCrs.filter (fun p => p ≠ s ∧ p ≠ t)
      else pivots
    cands.filterMap (fun p =>
      match directOperations reg s p, directOperations reg p t with
      | l1 :: _, l2 :: _ => some (ResolvedOperation.concatenated2 l1 l2)
      | _, _ => none)
  else
    direct.map (fun d => ResolvedOperation.transform d.1 d.2)

/-- The three CRS of the pivot tests (helper createSourceTargetPivotCRS):
NS_SOURCE:SOURCE, NS_TARGET:TARGET, NS_PIVOT:PIVOT. -/
def pivotTestCrsList : List (String × String) :=
  [("NS_SOURCE", "SOURCE"), ("NS_TARGET", "TARGET"), ("NS_PIVOT", "PIVOT")]

/-- One registered transformation of helper
createTransformationForPivotTesting, from namespace NS_src to NS_dst. -/
def pivotLeg (src dst : String) : TransformRecord :=
  ⟨"NS_" ++ src, src, "NS_" ++ dst, dst⟩

/-- Registry of the arrangement with legs source-to-pivot and
target-to-pivot. -/
def pivotReg1 : List TransformRecord :=
  [pivotLeg "SOURCE" "PIVOT", pivotLeg "TARGET" "PIVOT"]

/-- Registry of the arrangement with legs source-to-pivot and
pivot-to-target. -/
def pivotReg2 : List TransformRecord :=
  [pivotLeg "SOURCE" "PIVOT", pivotLeg "PIVOT" "TARGET"]

/-- Registry of the arrangement with legs pivot-to-source and
pivot-to-target. -/
def pivotReg3 : List TransformRecord :=
  [pivotLeg "PIVOT" "SOURCE", pivotLeg "PIVOT" "TARGET"]

/-- Registry of the arrangement with legs pivot-to-source and
target-to-pivot. -/
def pivotReg4 : List TransformRecord :=
  [pivotLeg "PIVOT" "SOURCE", pivotLeg "TARGET" "PIVOT"]

/-- Step counts of a pivot resolution of NS_SOURCE:SOURCE to
NS_TARGET:TARGET over a given registry, with a given explicit pivot
list. -/
def pivotResolutionStepCounts (reg : List TransformRecord)
    (pivots : List (String × String)) : List ℕ :=
  (createFromCRSCodesWithIntermediates reg pivotTestCrsList
    ("NS_SOURCE", "SOURCE") ("NS_TARGET", "TARGET") pivots).map
    ResolvedOperation.stepCount

/-! ### Sorting of candidate operations (claim C1) -/

/-- Geographic bounding box of an extent, degrees.  The bounds of the
extents involved in the claims are whole degrees, so they are embedded as
integers. -/
structure BBox where
  west : ℤ
  south : ℤ
  east : ℤ
  north : ℤ
deriving DecidableEq, Repr

/-- Spec section 4.3 step 7 computes the area rank from the bbox surface
area; this is the plate-carree pseudo surface. -/
def BBox.pseudoArea (b : BBox) : ℤ :=
  (b.east - b.west) * (b.north - b.south)

/-- The EPSG:1262 World extent of the fake database:
south -90, north 90, west -180, east 180. -/
def worldExtent : BBox := ⟨-180, -90, 180, 90⟩

/-- The EPSG:2060 extent of the fake database (World - N hemisphere -
0 E to 6 E): south 0, north 84, west 0, east 6. -/
def stripExtent2060 : BBox := ⟨0, 0, 6, 84⟩

/-- A candidate coordinate operation as ranked by the resolver: name,
deprecation flag, declared area of use and declared accuracy (none for
unknown). -/
structure OperationCandidate where
  opName : String
  deprecated : Bool
  extent : BBox
  accuracy : Option ℤ
deriving DecidableEq, Repr

/-- An accuracy counts as unknown-or-worst when absent or zero. -/
def accuracyUnknown (a : Option ℤ) : Bool :=
  match a with
  | none => true
  | some q => q == 0

/-- Numeric accuracy value used for comparison once known. -/
def accuracyValue (a : Option ℤ) : ℤ :=
  match a with
  | none => 0
  | some q => q

/-- Stable insertion of an element into a list sorted by le: on ties the
inserted element keeps its earlier position. -/
def insertLe (le : α → α → Bool) (a : α) : List α → List α
  | [] => [a]
  | b :: l => if le a b then a :: b :: l else b :: insertLe le a l

/-- Stable insertion sort by le. -/
def sortLe (le : α → α → Bool) : List α → List α
  | [] => []
  | a :: l => insertLe le a (sortLe le l)

/-- Comparator transcribing claim C1's own words: non-deprecated before
deprecated, then smaller area before larger (world last), then smaller
known accuracy first with unknown or zero accuracy worst, then stable
insertion order. -/
def claimC1LE (a b : OperationCandidate) : Bool :=
  if a.deprecated != b.deprecated then !a.deprecated
  else if a.extent.pseudoArea != b.extent.pseudoArea then
    decide (a.extent.pseudoArea < b.extent.pseudoArea)
  else if accuracyUnknown a.accuracy != accuracyUnknown b.accuracy then
    !(accuracyUnknown a.accuracy)
  else if accuracyValue a.accuracy != accuracyValue b.accuracy then
    decide (accuracyValue a.accuracy < accuracyValue b.accuracy)
  else true

/-- Modelled from the repository's own tests (the factory source is not
in the corpus): per AuthorityFactory_test_sorting_of_coordinate_operations
and the 4179-to-4258 case of
AuthorityFactory_createFromCoordinateReferenceSystemCodes, candidates
covering a larger area of use sort first (the world extent first, a small
extent last), and for equal area the numerically smaller accuracy sorts
first, insertion order breaking remaining ties stably. -/
def registryOpLE (a b : OperationCandidate) : Bool :=
  if a.extent.pseudoArea != b.extent.pseudoArea then
    decide (b.extent.pseudoArea < a.extent.pseudoArea)
  else if accuracyUnknown a.accuracy != accuracyUnknown b.accuracy then
    !(accuracyUnknown a.accuracy)
  else if accuracyValue a.accuracy != accuracyValue b.accuracy then
    decide (accuracyValue a.accuracy < accuracyValue b.accuracy)
  else true

/-- Modelled from the repository's own tests: the returned candidate list
excludes deprecated operations entirely (the deprecated fixture row is
absent from the returned list of size 3) and is sorted by registryOpLE. -/
def sortCoordinateOperations (l : List OperationCandidate) :
    List OperationCandidate :=
  sortLe registryOpLE (l.filter (fun c => !c.deprecated))

/-- Ranking that claim C1 describes: all candidates kept, deprecated
sorting last per its clause (a). -/
def claimC1SortCoordinateOperations (l : List OperationCandidate) :
    List OperationCandidate :=
  sortLe claimC1LE l

/-- Fixture transcribed from
AuthorityFactory_test_sorting_of_coordinate_operations, in registry
insertion order: TRANSFORMATION_10M (world extent, accuracy 10),
TRANSFORMATION_1M_SMALL_EXTENT (extent 2060, accuracy 1),
TRANSFORMATION_1M (world extent, accuracy 1), and a deprecated
TRANSFORMATION_0.5M_DEPRECATED (world extent, accuracy 1). -/
def sortingFixture : List OperationCandidate :=
  [⟨"TRANSFORMATION_10M", false, worldExtent, some 10⟩,
   ⟨"TRANSFORMATION_1M_SMALL_EXTENT", false, stripExtent2060, some 1⟩,
   ⟨"TRANSFORMATION_1M", false, worldExtent, some 1⟩,
   ⟨"TRANSFORMATION_0.5M_DEPRECATED", true, worldExtent, some 1⟩]

/-- The result order asserted by the test (EXPECT_EQ on res of size 3). -/
def sortingTestAsserted : List String :=
  ["TRANSFORMATION_1M", "TRANSFORMATION_10M",
   "TRANSFORMATION_1M_SMALL_EXTENT"]

/-! ### Concatenated operation EPSG:7987 and pipeline inversion (claim C4) -/

/-- Vertical units appearing in the EPSG:7987 pipeline. -/
inductive ZUnit where
  | metre
  | foot
deriving DecidableEq, Repr

/-- A primitive step of a flattened pipeline, restricted to the step kinds
of the EPSG:7987 scenario: a geographic offset with vertical shift dh, the
axis swap of order 1,2,-3 and a vertical unit conversion. -/
inductive PipelineStep where
  | geogoffset (dh : ℚ)
  | axisswapNeg3
  | unitconvertZ (zin : ZUnit) (zout : ZUnit)
deriving DecidableEq, Repr

/-- The algebraic inverse of one primitive step: the offset negates, the
axis swap of order 1,2,-3 is its own inverse, and a unit conversion swaps
its units. -/
def PipelineStep.inverseStep : PipelineStep → PipelineStep
  | PipelineStep.geogoffset dh => PipelineStep.geogoffset (-dh)
  | PipelineStep.axisswapNeg3 => PipelineStep.axisswapNeg3
  | PipelineStep.unitconvertZ zin zout => PipelineStep.unitconvertZ zout zin

/-- Modelled from the spec (sections 4.3 and 8): inverting a flattened
pipeline reverses the step order and inverts each step. -/
def pipelineInverse (p : List PipelineStep) : List PipelineStep :=
  (p.map PipelineStep.inverseStep).reverse

/-- A member operation of a concatenated operation, with its registry code
and the primitive step its pipeline export contributes. -/
structure MemberOperation where
  code : ℕ
  exportStep : PipelineStep
deriving DecidableEq, Repr

/-- A concatenated coordinate operation: its ordered member operations. -/
structure ConcatenatedOperation where
  operations : List MemberOperation
deriving DecidableEq, Repr

/-- Flattening a concatenated operation into the step sequence of its
PROJ-string pipeline export. -/
def ConcatenatedOperation.flatten (c : ConcatenatedOperation) :
    List PipelineStep :=
  c.operations.map MemberOperation.exportStep

/-- The inverse of a member operation: same registry object, algebraically
inverted export. -/
def MemberOperation.inverseM (m : MemberOperation) : MemberOperation :=
  ⟨m.code, m.exportStep.inverseStep⟩

/-- Modelled from the spec (section 4.3): the inverse of a concatenated
operation reverses the member list and inverts each member. -/
def ConcatenatedOperation.inverseC (c : ConcatenatedOperation) :
    ConcatenatedOperation :=
  ⟨(c.operations.map MemberOperation.inverseM).reverse⟩

/-- Member operations of EPSG:7987 as asserted by test
AuthorityFactory_createCoordinateOperation_concatenated_operation_step_2_and_3_are_conversion:
EPSG:7980 exporting the step geogoffset dh=-4.74, EPSG:7812 exporting the
axisswap order=1,2,-3 step, EPSG:7813 exporting unitconvert z_in=m
z_out=ft. -/
def epsg7987 : ConcatenatedOperation :=
  ⟨[⟨7980, PipelineStep.geogoffset (-474 / 100)⟩,
    ⟨7812, PipelineStep.axisswapNeg3⟩,
    ⟨7813, PipelineStep.unitconvertZ ZUnit.metre ZUnit.foot⟩]⟩

/-- The pipeline asserted by the test for EPSG:7987 itself. -/
def epsg7987AssertedPipeline : List PipelineStep :=
  [PipelineStep.geogoffset (-474 / 100),
   PipelineStep.axisswapNeg3,
   PipelineStep.unitconvertZ ZUnit.metre ZUnit.foot]

/-- The pipeline asserted by the test for the inverse of EPSG:7987. -/
def epsg7987AssertedInversePipeline : List PipelineStep :=
  [PipelineStep.unitconvertZ ZUnit.foot ZUnit.metre,
   PipelineStep.axisswapNeg3,
   PipelineStep.geogoffset (474 / 100)]

/-! ## Theorems -/

/-- C1 counterexample: the ranking the claim describes contradicts the
order asserted by the repository's own test
AuthorityFactory_test_sorting_of_coordinate_operations.  Under the
claim's comparator the small-extent candidate sorts first and the
deprecated one is kept last, but the test asserts a list of 3 whose first
element is the world-extent TRANSFORMATION_1M and whose last element is
TRANSFORMATION_1M_SMALL_EXTENT, so the small-extent candidate sorts last,
not first. -/
theorem sorting_claim_contradicted_by_test :
    (claimC1SortCoordinateOperations sortingFixture).map
        OperationCandidate.opName =
      ["TRANSFORMATION_1M_SMALL_EXTENT", "TRANSFORMATION_1M",
       "TRANSFORMATION_10M", "TRANSFORMATION_0.5M_DEPRECATED"] ∧
    (((claimC1SortCoordinateOperations sortingFixture).map
        OperationCandidate.opName) == sortingTestAsserted) = false ∧
    sortingTestAsserted.head? = some "TRANSFORMATION_1M" ∧
    sortingTestAsserted.getLast? =
      some "TRANSFORMATION_1M_SMALL_EXTENT" := by decide

/-- C1 amended: the returned candidate list excludes deprecated
operations entirely; among the remaining candidates those with the larger
declared area of use sort first (a world extent first, a small extent
last), for equal area the numerically smaller accuracy sorts first, and
registry insertion order is the stable final tie-break — reproducing
exactly the order the repository's test asserts. -/
theorem sorting_matches_repository_test :
    (sortCoordinateOperations sortingFixture).map
        OperationCandidate.opName = sortingTestAsserted ∧
    (sortCoordinateOperations sortingFixture).length = 3 ∧
    ((sortCoordinateOperations sortingFixture).all
      (fun c => !c.deprecated)) = true ∧
    worldExtent.pseudoArea = 64800 ∧
    stripExtent2060.pseudoArea = 504 := by decide

/-- C2: resolving EPSG:4326 to EPSG:32631 over the modelled registry
fragment returns exactly one operation: the conversion EPSG:16031 with
source and target CRS filled in (both present), equivalent to the
registry conversion of that code, whose method is EPSG:9807 Transverse
Mercator and which carries exactly 5 parameter values. -/
theorem resolve_4326_to_32631 :
    createFromCoordinateReferenceSystemCodes epsgMini 4326 32631 =
      [{ conv16031 with sourceCRS := some 4326,
                        targetCRS := some 32631 }] ∧
    (createFromCoordinateReferenceSystemCodes epsgMini 4326 32631).length
      = 1 ∧
    Conversion.isEquivalentTo
      { conv16031 with sourceCRS := some 4326, targetCRS := some 32631 }
      conv16031 ∧
    ({ conv16031 with sourceCRS := some 4326,
                      targetCRS := some 32631 } : Conversion).sourceCRS
      = some 4326 ∧
    ({ conv16031 with sourceCRS := some 4326,
                      targetCRS := some 32631 } : Conversion).targetCRS
      = some 32631 ∧
    conv16031.method.code = 9807 ∧
    conv16031.method.methodName = "Transverse Mercator" ∧
    conv16031.parameterValues.length = 5 ∧
    createConversion epsgMini 16031 = Except.ok conv16031 :=
  ⟨rfl, rfl, ⟨rfl, rfl⟩, rfl, rfl, rfl, rfl, rfl, rfl⟩

/-- C3: in each of the four direction arrangements of the two registered
legs, pivot resolution of NS_SOURCE:SOURCE to NS_TARGET:TARGET — both
without an explicit pivot list and with the pivot supplied explicitly —
returns exactly one operation, a 2-step concatenated operation (step
count 2 holds exactly of the concatenated2 constructor). -/
theorem pivot_resolution_four_arrangements :
    pivotResolutionStepCounts pivotReg1 [] = [2] ∧
    pivotResolutionStepCounts pivotReg2 [] = [2] ∧
    pivotResolutionStepCounts pivotReg3 [] = [2] ∧
    pivotResolutionStepCounts pivotReg4 [] = [2] ∧
    pivotResolutionStepCounts pivotReg1 [("NS_PIVOT", "PIVOT")] = [2] ∧
    pivotResolutionStepCounts pivotReg2 [("NS_PIVOT", "PIVOT")] = [2] ∧
    pivotResolutionStepCounts pivotReg3 [("NS_PIVOT", "PIVOT")] = [2] ∧
    pivotResolutionStepCounts pivotReg4 [("NS_PIVOT", "PIVOT")] = [2] := by
  decide

/-- C5 counterexample: on a registry where code 4326 appears in two
tables (extent and geodetic_crs, as the repository test notes), the
factory fails with a generic FactoryException — not the first-matching
table's object that the claim's until-one-matches reading demands — and
that error is not a NoSuchAuthorityCodeException. -/
theorem createObject_ambiguous_code_fails :
    createObject ambiguousTables "EPSG" "4326" =
      Except.error
        (FactoryException.generic "several objects matching this code") ∧
    (matchingTables ambiguousTables "4326").length = 2 ∧
    createObjectFirstMatch ambiguousTables "EPSG" "4326" =
      Except.ok ("extent", "4326") ∧
    (FactoryException.generic
        "several objects matching this code").isNoSuchAuthorityCode
      = false :=
  ⟨rfl, rfl, rfl, rfl⟩

/-- C5 amended: createObject returns the matched object when the code
appears in exactly one table, fails with NoSuchAuthorityCodeException
when no table contains it, fails with a generic FactoryException when the
code is ambiguous across several tables, and
NoSuchAuthorityCodeException remains a distinguished subtype of
FactoryException. -/
theorem createObject_classifies (tables : List ObjectTable)
    (authority code : String) :
    (matchingTables tables code = [] →
      createObject tables authority code =
        Except.error
          (FactoryException.noSuchAuthorityCode authority code)) ∧
    (∀ t, matchingTables tables code = [t] →
      createObject tables authority code = Except.ok (t.tableName, code)) ∧
    (∀ t1 t2 rest, matchingTables tables code = t1 :: t2 :: rest →
      createObject tables authority code =
        Except.error
          (FactoryException.generic "several objects matching this code")) ∧
    (FactoryException.noSuchAuthorityCode authority
        code).isNoSuchAuthorityCode = true ∧
    (∀ msg, (FactoryException.generic msg).isNoSuchAuthorityCode
      = false) := by
  refine ⟨?_, ?_, ?_, rfl, fun _ => rfl⟩
  · intro h
    unfold createObject
    rw [h]
  · intro t h
    unfold createObject
    rw [h]
  · intro t1 t2 rest h
    unfold createObject
    rw [h]

/-- C5 witness: the amended theorem applied to the empty registry, where
code 4326 matches no table. -/
theorem createObject_classifies_witness :
    createObject [] "EPSG" "4326" =
      Except.error (FactoryException.noSuchAuthorityCode "EPSG" "4326") :=
  (createObject_classifies [] "EPSG" "4326").1 rfl

/-- C6: on the fixture of test custom_geodetic_crs, constructing the CRS
whose PROJ-string record references its own code terminates with the
cycle-detection FactoryException (not the depth-exhaustion one, and not a
NoSuchAuthorityCodeException), while the well-founded reference
TEST_REF_ANOTHER to the PROJ-string-defined TEST succeeds with the
ellipsoid of TEST; a malformed record and an absent code fail with their
own distinguished errors. -/
theorem custom_geodetic_crs_cycle_rejected :
    createGeodeticCRS customCrsRegistry ("TEST_NS", "TEST_RECURSIVE") =
      Except.error
        (FactoryException.generic "circular reference to a CRS definition") ∧
    createGeodeticCRS customCrsRegistry ("TEST_NS", "TEST_REF_ANOTHER") =
      Except.ok ⟨2, 300⟩ ∧
    createGeodeticCRS customCrsRegistry ("TEST_NS", "TEST") =
      Except.ok ⟨2, 300⟩ ∧
    createGeodeticCRS customCrsRegistry ("TEST_NS", "TEST_WRONG") =
      Except.error
        (FactoryException.generic "invalid PROJ string for a geodetic CRS") ∧
    createGeodeticCRS customCrsRegistry ("TEST_NS", "MISSING") =
      Except.error
        (FactoryException.noSuchAuthorityCode "TEST_NS" "MISSING") :=
  ⟨rfl, rfl, rfl, rfl, rfl⟩

/-- C7: starting an insertion session on a context that already has one
open fails with FactoryException (so at most one session is open at a
time, and in particular a second start right after a successful one
fails), a start on a session-free context succeeds, and querying the
generated insert statements without an open session fails with
FactoryException rather than returning an empty list, while inside a
session it succeeds. -/
theorem insertion_session_discipline (ctx : DatabaseContext)
    (objCode : String) :
    (ctx.sessionOpen = true →
      startInsertStatementsSession ctx =
        Except.error (FactoryException.generic
          "startInsertStatementsSession() cannot be nested")) ∧
    (ctx.sessionOpen = false →
      startInsertStatementsSession ctx = Except.ok ⟨true, ctx.registry⟩) ∧
    (∀ ctx2, startInsertStatementsSession ctx = Except.ok ctx2 →
      startInsertStatementsSession ctx2 =
        Except.error (FactoryException.generic
          "startInsertStatementsSession() cannot be nested")) ∧
    (ctx.sessionOpen = false →
      getInsertStatementsFor ctx objCode =
        Except.error (FactoryException.generic
          "startInsertStatementsSession() should have been called first")) ∧
    (ctx.sessionOpen = true →
      ∃ l, getInsertStatementsFor ctx objCode = Except.ok l) := by
  obtain ⟨sessionOpen, registry⟩ := ctx
  cases sessionOpen <;>
    simp [startInsertStatementsSession, getInsertStatementsFor]

/-- C7 witness: the discipline theorem applied to a context with an open
session and to a fresh context. -/
theorem insertion_session_discipline_witness :
    startInsertStatementsSession ⟨true, []⟩ =
      Except.error (FactoryException.generic
        "startInsertStatementsSession() cannot be nested") ∧
    getInsertStatementsFor ⟨false, []⟩ "4326" =
      Except.error (FactoryException.generic
        "startInsertStatementsSession() should have been called first") :=
  ⟨(insertion_session_discipline ⟨true, []⟩ "4326").1 rfl,
   (insertion_session_discipline ⟨false, []⟩ "4326").2.2.2.1 rfl⟩

/-- C4: EPSG:7987 resolves to a concatenated operation of exactly 3
member operations whose flattened pipeline is the one asserted by the
test, ending with the step unitconvert z_in=m z_out=ft; the flattened
pipeline of its inverse is the asserted inverse pipeline, beginning with
unitconvert z_in=ft z_out=m; and in general flattening the inverse of a
concatenation equals the element-for-element inverse of the flattening in
reverse order, so that pipeline inversion is idempotent. -/
theorem epsg7987_pipeline_inversion :
    epsg7987.operations.length = 3 ∧
    epsg7987.flatten = epsg7987AssertedPipeline ∧
    epsg7987.flatten.getLast? =
      some (PipelineStep.unitconvertZ ZUnit.metre ZUnit.foot) ∧
    epsg7987.inverseC.flatten = epsg7987AssertedInversePipeline ∧
    epsg7987.inverseC.flatten.head? =
      some (PipelineStep.unitconvertZ ZUnit.foot ZUnit.metre) ∧
    (∀ c : ConcatenatedOperation,
      c.inverseC.flatten =
        (c.flatten.map PipelineStep.inverseStep).reverse) ∧
    (∀ c : ConcatenatedOperation, c.inverseC.inverseC = c) := by
  have hstep : ∀ s : PipelineStep, s.inverseStep.inverseStep = s := by
    intro s
    cases s <;> simp [PipelineStep.inverseStep]
  have hmem : ∀ m : MemberOperation, m.inverseM.inverseM = m := by
    intro m
    obtain ⟨code, s⟩ := m
    simp [MemberOperation.inverseM, hstep]
  refine ⟨rfl, rfl, rfl, ?_, ?_, ?_, ?_⟩
  · show (List.map MemberOperation.exportStep _) = _
    norm_num [epsg7987, ConcatenatedOperation.inverseC,
      MemberOperation.inverseM, PipelineStep.inverseStep,
      epsg7987AssertedInversePipeline]
  · norm_num [epsg7987, ConcatenatedOperation.inverseC,
      ConcatenatedOperation.flatten, MemberOperation.inverseM,
      PipelineStep.inverseStep]
  · intro c
    simp only [ConcatenatedOperation.inverseC, ConcatenatedOperation.flatten,
      List.map_reverse, List.map_map]
    rfl
  · intro c
    obtain ⟨ops⟩ := c
    simp only [ConcatenatedOperation.inverseC, List.map_reverse,
      List.reverse_reverse, List.map_map]
    have hM : (MemberOperation.inverseM ∘ MemberOperation.inverseM) = id := by
      funext m
      exact hmem m
    rw [hM, List.map_id]

/-- C8 (evaluation at the failing input): with lat_ts = 2π rad (360°) on
a sphere (es = 0), the cea setup succeeds and establishes k0 = 1 even
though the absolute value of lat_ts exceeds 90° (π/2 rad): the guard in
cea.cpp only rejects cos(lat_ts) < 0, missing wrapped angles, contrary to
its own error message that |lat_ts| should be at most 90°. -/
theorem cea_lat_ts_wraparound_accepted :
    cea_setup true (2 * Real.pi) 1 0 = Except.ok ⟨1, false⟩ ∧
    Real.pi / 2 < |2 * Real.pi| ∧
    Real.cos (2 * Real.pi) = 1 := by
  refine ⟨?_, ?_, Real.cos_two_pi⟩
  · unfold cea_setup
    rw [if_neg, if_neg]
    · rw [if_pos rfl, Real.cos_two_pi]
    · simp
    · rintro ⟨-, h⟩
      rw [Real.cos_two_pi] at h
      exact absurd h (by norm_num)
  · have hpi := Real.pi_pos
    rw [abs_of_pos (by linarith)]
    linarith

/-- C9: the spherical cea inverse fails per point exactly when
|y * k0| exceeds 1 + 1e-10, flagging the outside-projection-domain error
and returning the zero-initialized point; within the tolerance band it
returns latitude exactly plus or minus π/2 with longitude x / k0 and no
error; below 1 it returns asin(y * k0) and x / k0; and the returned
latitude never exceeds π/2 in absolute value. -/
theorem cea_s_inverse_domain (x y k0 : ℝ) :
    (1 + EPS < |y * k0| →
      cea_s_inverse ⟨x, y⟩ k0 =
        (⟨0, 0⟩, some PROJ_ERR_COORD_TRANSFM_OUTSIDE_PROJECTION_DOMAIN)) ∧
    (1 ≤ |y * k0| → |y * k0| ≤ 1 + EPS →
      (cea_s_inverse ⟨x, y⟩ k0).2 = none ∧
      (cea_s_inverse ⟨x, y⟩ k0).1.lam = x / k0 ∧
      ((cea_s_inverse ⟨x, y⟩ k0).1.phi = Real.pi / 2 ∨
       (cea_s_inverse ⟨x, y⟩ k0).1.phi = -(Real.pi / 2))) ∧
    (|y * k0| < 1 →
      cea_s_inverse ⟨x, y⟩ k0 = (⟨x / k0, Real.arcsin (y * k0)⟩, none)) ∧
    |(cea_s_inverse ⟨x, y⟩ k0).1.phi| ≤ Real.pi / 2 := by
  have hEPS : (0 : ℝ) < EPS := by norm_num [EPS]
  have hpi := Real.pi_pos
  refine ⟨?_, ?_, ?_, ?_⟩
  · intro h
    simp only [cea_s_inverse]
    rw [if_neg (by linarith)]
  · intro h1 h2
    simp only [cea_s_inverse]
    rw [if_pos (by linarith), if_pos h1]
    refine ⟨rfl, rfl, ?_⟩
    by_cases hneg : y * k0 < 0
    · rw [if_pos hneg]
      exact Or.inr rfl
    · rw [if_neg hneg]
      exact Or.inl rfl
  · intro h
    simp only [cea_s_inverse]
    rw [if_pos (by linarith), if_neg (not_le.mpr h)]
  · simp only [cea_s_inverse]
    by_cases houter : |y * k0| - EPS ≤ 1
    · rw [if_pos houter]
      by_cases h1 : 1 ≤ |y * k0|
      · rw [if_pos h1]
        by_cases hneg : y * k0 < 0
        · rw [if_pos hneg]
          show |(-(Real.pi / 2))| ≤ Real.pi / 2
          rw [abs_neg, abs_of_nonneg (by linarith)]
        · rw [if_neg hneg]
          show |Real.pi / 2| ≤ Real.pi / 2
          rw [abs_of_nonneg (by linarith)]
      · rw [if_neg h1]
        show |Real.arcsin (y * k0)| ≤ Real.pi / 2
        exact abs_le.mpr ⟨Real.neg_pi_div_two_le_arcsin _,
          Real.arcsin_le_pi_div_two _⟩
    · rw [if_neg houter]
      show |(0 : ℝ)| ≤ Real.pi / 2
      rw [abs_zero]
      linarith

/-- C9 witness: the inverse kernel at the concrete point (0, 2) with
k0 = 1 is outside the projection domain and yields the flagged error with
the zero point. -/
theorem cea_s_inverse_domain_witness :
    cea_s_inverse ⟨0, 2⟩ 1 =
      (⟨0, 0⟩, some PROJ_ERR_COORD_TRANSFM_OUTSIDE_PROJECTION_DOMAIN) :=
  (cea_s_inverse_domain 0 2 1).1
    (by rw [abs_of_pos (by norm_num)]; norm_num [EPS])

/-- C10: in exact real arithmetic, for k0 > 0 and |phi| ≤ π/2 the
spherical cea inverse is a left inverse of the spherical cea forward
mapping, returning the original point with no error set. -/
theorem cea_s_forward_inverse_round_trip (k0 lam phi : ℝ)
    (hk : 0 < k0) (hphi : |phi| ≤ Real.pi / 2) :
    cea_s_inverse (cea_s_forward ⟨lam, phi⟩ k0) k0 = (⟨lam, phi⟩, none) := by
  have hk0 : k0 ≠ 0 := ne_of_gt hk
  have hphi' := abs_le.mp hphi
  have hsin : Real.sin phi / k0 * k0 = Real.sin phi :=
    div_mul_cancel₀ _ hk0
  have habs : |Real.sin phi| ≤ 1 :=
    abs_le.mpr ⟨Real.neg_one_le_sin phi, Real.sin_le_one phi⟩
  have hEPS : (0 : ℝ) < EPS := by norm_num [EPS]
  have hlam : k0 * lam / k0 = lam := by
    field_simp
  have harc := Real.arcsin_sin hphi'.1 hphi'.2
  simp only [cea_s_forward, cea_s_inverse, hsin, hlam]
  rw [if_pos (by linarith)]
  by_cases h1 : 1 ≤ |Real.sin phi|
  · have heq : |Real.sin phi| = 1 := le_antisymm habs h1
    rcases (abs_eq (by norm_num : (0 : ℝ) ≤ 1)).mp heq with hs | hs
    · rw [if_pos h1, if_neg (by rw [hs]; norm_num)]
      have hval : phi = Real.pi / 2 := by
        rw [hs, Real.arcsin_one] at harc
        exact harc.symm
      rw [hval]
    · rw [if_pos h1, if_pos (by rw [hs]; norm_num)]
      have hval : phi = -(Real.pi / 2) := by
        rw [hs, Real.arcsin_neg_one] at harc
        exact harc.symm
      rw [hval]
  · rw [if_neg h1, harc]

/-- C10 witness: the round trip at the concrete point lam = 0, phi = 0
with k0 = 1. -/
theorem cea_s_forward_inverse_round_trip_witness :
    cea_s_inverse (cea_s_forward ⟨0, 0⟩ 1) 1 = (⟨0, 0⟩, none) :=
  cea_s_forward_inverse_round_trip 1 0 0 (by norm_num)
    (by rw [abs_zero]; positivity)

end PROJ
